import Mathlib

/-!
Shallow embedding of `scripts/generate_charts.py` (nimsync benchmark chart
generator) and proofs about the claims of its specification.

Numeric values carried by the CSV tables are modelled as rationals.  Where the
script relies on IEEE-float behaviour of numpy/pandas, a non-finite result
(NaN or inf) is modelled as `none` in an `Option ℚ`; the doc comment of each
definition states the library behaviour it embeds.
-/

/-- Lexicographic comparison of two character sequences by code point.  This is
how Python compares strings, which is what `sorted(results_dirs)` in `main`
(line 152) relies on. -/
def lexLe : List Char → List Char → Bool
  | [], _ => true
  | _ :: _, [] => false
  | a :: as, b :: bs =>
    if a.toNat < b.toNat then true
    else if b.toNat < a.toNat then false
    else lexLe as bs

/-- Python string ordering (code-point lexicographic). -/
def strLe (a b : String) : Prop := lexLe a.data b.data = true

instance : DecidableRel strLe := fun a b => by unfold strLe; infer_instance

/-- Embeds `sorted(results_dirs)[-1]` from `main` (lines 145-152): sort the
matching directory names and take the last, i.e. the lexicographically
greatest; `none` when no directory matches. -/
def locateLatest (dirs : List String) : Option String :=
  (List.insertionSort strLe dirs).getLast?

/-- Embeds pandas `Series.idxmax` (line 39): the index of the maximum value,
first occurrence on ties; an empty series raises `ValueError`, modelled as
`none`. -/
def idxmaxFirst : List ℚ → Option ℕ
  | [] => none
  | x :: xs =>
    match idxmaxFirst xs with
    | none => some 0
    | some j => if x < xs.getD j 0 then some (j + 1) else some 0

/-- Embeds lines 39-41: `idxmax` over the metric column followed by `df.loc`
look-ups of the key and the metric at that row. -/
def optimalPoint (t : List (ℚ × ℚ)) : Option (ℚ × ℚ) :=
  (idxmaxFirst (t.map Prod.snd)).bind fun i => t[i]?

/-- Window size derived at line 76: `max(1, len(df_10s) // 50)`. -/
def derivedWindow (n : ℕ) : ℕ := max 1 (n / 50)

/-- Embeds pandas `rolling(window=w).mean()` (line 77) with the default
`min_periods = w`: element `i` is NaN (here `none`) while fewer than `w`
elements are available, and otherwise the mean of the `w` trailing elements
ending at `i`. -/
def rollingMean (xs : List ℚ) (w : ℕ) : List (Option ℚ) :=
  (List.range xs.length).map fun i =>
    if i + 1 < w then none
    else some ((((xs.take (i + 1)).drop (i + 1 - w)).sum) / w)

/-- Embeds pandas `Series.mean` (line 89) on the non-empty series the script
guards for: the sum divided by the length. -/
def listMean (xs : List ℚ) : ℚ := xs.sum / xs.length

/-- Embeds pandas `Series.min` (line 90); the script only reaches it on a
non-empty series, so the default for `[]` is irrelevant. -/
def listMin : List ℚ → ℚ
  | [] => 0
  | x :: xs => xs.foldl min x

/-- Embeds pandas `Series.max` (line 91). -/
def listMax : List ℚ → ℚ
  | [] => 0
  | x :: xs => xs.foldl max x

/-- Float division as numpy performs it at line 92: a zero divisor does not
raise an exception but yields a non-finite value (inf or NaN), modelled as
`none`. -/
def floatDiv (a b : ℚ) : Option ℚ := if b = 0 then none else some (a / b)

/-- Embeds lines 89-92: the variance-percentage statistic
`((max - min) / avg) * 100` over the filtered throughput series, each of the
three aggregates first divided by 1e6. -/
def variancePct (xs : List ℚ) : Option ℚ :=
  (floatDiv (listMax xs / 1000000 - listMin xs / 1000000) (listMean xs / 1000000)).map
    fun v => v * 100

/-- Sorted copy of a rational list, as pandas sorts the sample for its
quantile computation. -/
def sortQ (xs : List ℚ) : List ℚ := List.insertionSort (fun a b => a ≤ b) xs

/-- Embeds pandas `Series.quantile(p)` (lines 127-129) with the default
linear interpolation: the value at fractional rank `p * (n - 1)` of the
sorted sample, interpolated between the two bracketing order statistics.  An
empty series yields NaN (modelled `none`); the script only calls it with
`p` in `[0, 1]`. -/
def quantileLin (xs : List ℚ) (p : ℚ) : Option ℚ :=
  if xs = [] then none
  else
    let s := sortQ xs
    let h := p * ((s.length : ℚ) - 1)
    let i := (⌊h⌋).toNat
    let g := h - ((⌊h⌋ : ℤ) : ℚ)
    some (s.getD i 0 + g * (s.getD (i + 1) 0 - s.getD i 0))

/-- Modelled from the spec (section 8): the conventional median as a
sorted-array midpoint computation, the cross-check definition the spec names;
it is deliberately written from the spec's words, not from the source. -/
def medianConv (xs : List ℚ) : Option ℚ :=
  if xs = [] then none
  else
    let s := sortQ xs
    let n := s.length
    if n % 2 = 1 then some (s.getD (n / 2) 0)
    else some ((s.getD (n / 2 - 1) 0 + s.getD (n / 2) 0) / 2)

/-- Python exceptions that the chart builds can raise; the only reachable one
is the `ValueError` that `idxmax` raises on an empty table. -/
inductive PyErr
  | valueError
  deriving DecidableEq

/-- Chart data produced by `plot_buffer_sizes` (lines 26-47): the plotted
series and the optimal-point annotation. -/
structure SweepChart where
  series : List (ℚ × ℚ)
  optimal_size : ℚ
  optimal_throughputM : ℚ
  deriving DecidableEq

/-- One row of `sustained_timeseries.csv`. -/
structure SustainedRow where
  test_name : String
  elapsed_time_sec : ℚ
  throughput_ops_per_sec : ℚ
  deriving DecidableEq

/-- Chart data produced by `plot_sustained_timeseries` (lines 62-97): raw
series, rolling-average series, and the statistics text block. -/
structure SustainedChart where
  primary : List (ℚ × ℚ)
  secondary : List (ℚ × Option ℚ)
  avgM : ℚ
  varPct : Option ℚ
  deriving DecidableEq

/-- Chart data produced by `plot_latency_distribution` (lines 112-133): the
three percentile reference lines. -/
structure LatencyChart where
  p50 : Option ℚ
  p99 : Option ℚ
  p999 : Option ℚ
  deriving DecidableEq

/-- Outcome of one chart build. -/
inductive ChartOutcome
  | skippedMissing
  | skippedEmpty
  | renderedSweep (c : SweepChart)
  | renderedSustained (c : SustainedChart)
  | renderedLatency (c : LatencyChart)
  deriving DecidableEq

/-- The three tabular inputs a result-set directory may contain; `none` means
the file does not exist.  Rows are already typed, as `pd.read_csv` types
them. -/
structure FS where
  buffer_sizes : Option (List (ℚ × ℚ))
  sustained_timeseries : Option (List SustainedRow)
  latency_samples : Option (List ℚ)

/-- The series plotted at line 29: `(buffer_size, throughput / 1e6)` in table
row order (the code does not sort). -/
def sweepSeries (rows : List (ℚ × ℚ)) : List (ℚ × ℚ) :=
  rows.map fun r => (r.1, r.2 / 1000000)

/-- Embeds `plot_buffer_sizes` (lines 19-53): skip when the file is missing,
otherwise plot the series and annotate the optimal point found by `idxmax`;
`idxmax` on an empty table raises, which propagates out of the function. -/
def plotBufferSizes (fs : FS) : Except PyErr ChartOutcome :=
  match fs.buffer_sizes with
  | none => .ok .skippedMissing
  | some rows =>
    match idxmaxFirst (rows.map Prod.snd) with
    | none => .error .valueError
    | some i =>
      .ok (.renderedSweep
        { series := sweepSeries rows
          optimal_size := (rows.getD i (0, 0)).1
          optimal_throughputM := (rows.getD i (0, 0)).2 / 1000000 })

/-- The literal filter label at line 65. -/
def targetName : String := "10-second sustained load"

/-- Embeds `plot_sustained_timeseries` (lines 55-103): skip when the file is
missing, skip when the filtered series is empty, otherwise build the raw
series, the rolling-average series and the statistics block.  No statement in
the body can raise. -/
def plotSustained (fs : FS) : Except PyErr ChartOutcome :=
  match fs.sustained_timeseries with
  | none => .ok .skippedMissing
  | some rows =>
    let f := rows.filter fun r => r.test_name == targetName
    if f.length = 0 then .ok .skippedEmpty
    else
      let xs := f.map fun r => r.throughput_ops_per_sec
      let w := derivedWindow f.length
      .ok (.renderedSustained
        { primary := f.map fun r => (r.elapsed_time_sec, r.throughput_ops_per_sec / 1000000)
          secondary :=
            (f.map fun r => r.elapsed_time_sec).zip
              ((rollingMean xs w).map (Option.map fun v => v / 1000000))
          avgM := listMean xs / 1000000
          varPct := variancePct xs })

/-- Embeds `plot_latency_distribution` (lines 105-141): skip when the file is
missing, otherwise compute the three percentile reference lines.  Pandas
`quantile` on an empty series yields NaN, not an error, so the body never
raises. -/
def plotLatency (fs : FS) : Except PyErr ChartOutcome :=
  match fs.latency_samples with
  | none => .ok .skippedMissing
  | some xs =>
    .ok (.renderedLatency
      { p50 := quantileLin xs (1 / 2)
        p99 := quantileLin xs (99 / 100)
        p999 := quantileLin xs (999 / 1000) })

/-- Result of a whole run of `main`: no result set found (exit 1), an uncaught
exception after the recorded chart outcomes (Python terminates with a nonzero
status), or normal completion with all three outcomes. -/
inductive MainResult
  | noResultSet
  | crashed (done : List ChartOutcome) (e : PyErr)
  | completed (outcomes : List ChartOutcome)
  deriving DecidableEq

/-- Embeds the chart-generation phase of `main` (lines 161-163): the three
builds run sequentially and nothing catches an exception, so a failure aborts
the remaining builds. -/
def runCharts (fs : FS) : MainResult :=
  match plotBufferSizes fs with
  | .error e => .crashed [] e
  | .ok o1 =>
    match plotSustained fs with
    | .error e => .crashed [o1] e
    | .ok o2 =>
      match plotLatency fs with
      | .error e => .crashed [o1, o2] e
      | .ok o3 => .completed [o1, o2, o3]

/-- Embeds `main` (lines 143-163): locate the latest result directory, exit 1
when none matches, otherwise run the three chart builds against it. -/
def runMain (dirs : List String) (f : String → FS) : MainResult :=
  match locateLatest dirs with
  | none => .noResultSet
  | some d => runCharts (f d)

/-- Process exit status of a run: `sys.exit(1)` on a missing result set,
Python's status 1 on an uncaught exception, 0 on normal completion. -/
def exitCode : MainResult → ℕ
  | .noResultSet => 1
  | .crashed _ _ => 1
  | .completed _ => 0

/-- Code-point lexicographic comparison is reflexive. -/
theorem lexLe_refl (l : List Char) : lexLe l l = true := by
  induction l with
  | nil => rfl
  | cons a t ih => simp [lexLe, ih]

/-- Code-point lexicographic comparison is total. -/
theorem lexLe_total (a b : List Char) : lexLe a b = true ∨ lexLe b a = true := by
  induction a generalizing b with
  | nil => left; rfl
  | cons x xs ih =>
    cases b with
    | nil => right; rfl
    | cons y ys =>
      rcases Nat.lt_trichotomy x.toNat y.toNat with h | h | h
      · left; simp [lexLe, h]
      · rcases ih ys with h2 | h2
        · left; simp [lexLe, h, Nat.lt_irrefl, h2]
        · right; simp [lexLe, h.symm, Nat.lt_irrefl, h2]
      · right; simp [lexLe, h]

/-- Code-point lexicographic comparison is transitive. -/
theorem lexLe_trans : ∀ (a b c : List Char),
    lexLe a b = true → lexLe b c = true → lexLe a c = true := by
  intro a
  induction a with
  | nil => intro b c _ _; rfl
  | cons x xs ih =>
    intro b c hab hbc
    cases b with
    | nil => simp [lexLe] at hab
    | cons y ys =>
      cases c with
      | nil => simp [lexLe] at hbc
      | cons z zs =>
        simp only [lexLe] at hab hbc ⊢
        rcases Nat.lt_trichotomy x.toNat y.toNat with h1 | h1 | h1
        · rcases Nat.lt_trichotomy y.toNat z.toNat with h2 | h2 | h2
          · simp [show x.toNat < z.toNat by omega]
          · simp [show x.toNat < z.toNat by omega]
          · simp [show ¬ y.toNat < z.toNat by omega, h2] at hbc
        · rcases Nat.lt_trichotomy y.toNat z.toNat with h2 | h2 | h2
          · simp [show x.toNat < z.toNat by omega]
          · simp only [h1, Nat.lt_irrefl, if_false] at hab
            simp only [h2, Nat.lt_irrefl, if_false] at hbc
            simp [show ¬ x.toNat < z.toNat by omega, show ¬ z.toNat < x.toNat by omega,
              ih ys zs hab hbc]
          · simp [show ¬ y.toNat < z.toNat by omega, h2] at hbc
        · simp [show ¬ x.toNat < y.toNat by omega, h1] at hab

/-- The modelled Python string order is reflexive. -/
theorem strLe_refl (a : String) : strLe a a := lexLe_refl a.data

instance : IsTotal String strLe := ⟨fun a b => lexLe_total a.data b.data⟩

instance : IsTrans String strLe := ⟨fun a b c => lexLe_trans a.data b.data c.data⟩

/-- In a sorted list, the last element is an upper bound, provided the order
is reflexive. -/
theorem sorted_getLast_upper {α : Type} (r : α → α → Prop) (hrefl : ∀ a, r a a) :
    ∀ (l : List α) (m : α), List.Sorted r l → l.getLast? = some m → ∀ x ∈ l, r x m := by
  intro l
  induction l with
  | nil => simp
  | cons a t ih =>
    intro m hs hl x hx
    cases t with
    | nil =>
      obtain rfl : a = m := by simpa using hl
      obtain rfl : x = a := by simpa using hx
      exact hrefl x
    | cons b t2 =>
      rw [List.getLast?_cons_cons] at hl
      have hm : m ∈ b :: t2 := by
        obtain ⟨ys, hys⟩ := List.getLast?_eq_some_iff.mp hl
        rw [hys]; simp
      rcases List.mem_cons.mp hx with rfl | hx2
      · exact (List.sorted_cons.mp hs).1 m hm
      · exact ih m (List.sorted_cons.mp hs).2 hl x hx2

/-- The idxmax embedding returns an index exactly on non-empty input. -/
theorem idxmaxFirst_eq_none_iff (xs : List ℚ) : idxmaxFirst xs = none ↔ xs = [] := by
  cases xs with
  | nil => simp [idxmaxFirst]
  | cons x t =>
    simp only [idxmaxFirst]
    cases h2 : idxmaxFirst t with
    | none => simp
    | some j =>
      simp only [List.cons_ne_nil, iff_false]
      split <;> simp

/-- The index returned by the idxmax embedding is in range, attains the
maximum, and every earlier position is strictly below it (first occurrence on
ties). -/
theorem idxmaxFirst_spec (xs : List ℚ) (i : ℕ) (h : idxmaxFirst xs = some i) :
    i < xs.length ∧ (∀ j, j < xs.length → xs.getD j 0 ≤ xs.getD i 0) ∧
      ∀ j, j < i → xs.getD j 0 < xs.getD i 0 := by
  induction xs generalizing i with
  | nil => simp [idxmaxFirst] at h
  | cons x t ih =>
    simp only [idxmaxFirst] at h
    split at h
    · rename_i ht
      obtain rfl : i = 0 := by simpa using h.symm
      obtain rfl : t = [] := (idxmaxFirst_eq_none_iff t).mp ht
      refine ⟨by simp, ?_, by simp⟩
      intro j hj
      obtain rfl : j = 0 := by simpa using hj
      simp
    · rename_i k ht
      obtain ⟨hk1, hk2, hk3⟩ := ih k ht
      by_cases hx : x < t.getD k 0
      · rw [if_pos hx] at h
        obtain rfl : i = k + 1 := by simpa using h.symm
        refine ⟨by simpa using hk1, ?_, ?_⟩
        · intro j hj
          cases j with
          | zero => simpa [List.getD_cons_zero, List.getD_cons_succ] using le_of_lt hx
          | succ j2 =>
            simpa [List.getD_cons_succ] using hk2 j2 (by simpa using hj)
        · intro j hj
          cases j with
          | zero => simpa [List.getD_cons_zero, List.getD_cons_succ] using hx
          | succ j2 =>
            simpa [List.getD_cons_succ] using hk3 j2 (by omega)
      · rw [if_neg hx] at h
        obtain rfl : i = 0 := by simpa using h.symm
        push_neg at hx
        refine ⟨by simp, ?_, by simp⟩
        intro j hj
        cases j with
        | zero => simp
        | succ j2 =>
          have h2 := hk2 j2 (by simpa using hj)
          calc (x :: t).getD (j2 + 1) 0 = t.getD j2 0 := List.getD_cons_succ
            _ ≤ t.getD k 0 := h2
            _ ≤ x := hx

/-- Pointwise value of the rolling-mean embedding at an in-range index. -/
theorem rollingMean_getElem (xs : List ℚ) (w i : ℕ) (hi : i < xs.length) :
    (rollingMean xs w)[i]? =
      some (if i + 1 < w then none
        else some ((((xs.take (i + 1)).drop (i + 1 - w)).sum) / w)) := by
  simp [rollingMean, List.getElem?_map, List.getElem?_range hi]

/-- A rolling mean with window one is the identity (pandas emits no NaN and
each element averages only itself). -/
theorem rollingMean_one (xs : List ℚ) : rollingMean xs 1 = xs.map some := by
  apply List.ext_getElem?
  intro i
  by_cases hi : i < xs.length
  · rw [rollingMean_getElem xs 1 i hi, if_neg (by omega)]
    have hdrop : (xs.take (i + 1)).drop (i + 1 - 1) = List.take 1 (List.drop i xs) := by
      rw [Nat.add_sub_cancel, List.drop_take]
      congr 1
      omega
    rw [hdrop, List.drop_eq_getElem_cons hi, List.take_one]
    simp [List.getElem?_map, List.getElem?_eq_getElem hi]
  · have hx : xs.length ≤ i := by omega
    rw [List.getElem?_eq_none (by simpa [rollingMean] using hx),
      List.getElem?_eq_none (by simpa using hx)]

/-- C9: the rolling-average output sequence has exactly the length of the
input sequence, for every window size of at least one. -/
theorem C9_rollingMean_length_eq (xs : List ℚ) (w : ℕ) (hw : 1 ≤ w) :
    (rollingMean xs w).length = xs.length := by
  simp [rollingMean]

/-- Witness for C9 at a concrete input. -/
theorem C9_rollingMean_length_eq_witness :
    (rollingMean [(1 : ℚ), 2, 3] 2).length = 3 :=
  C9_rollingMean_length_eq [(1 : ℚ), 2, 3] 2 (by norm_num)

/-- C10: on a filtered series of fewer than 100 rows the derived window is 1
and the smoothed series (divided by 1e6) is elementwise the raw series
(divided by 1e6): the smoothing step is the identity on small runs. -/
theorem C10_small_run_smoothing_identity (xs : List ℚ) (h : xs.length < 100) :
    derivedWindow xs.length = 1 ∧
    (rollingMean xs (derivedWindow xs.length)).map (Option.map fun v => v / 1000000) =
      xs.map fun v => some (v / 1000000) := by
  have hw : derivedWindow xs.length = 1 := Nat.max_eq_left (by omega)
  refine ⟨hw, ?_⟩
  rw [hw, rollingMean_one, List.map_map]
  rfl

/-- Witness for C10 at a concrete input. -/
theorem C10_small_run_smoothing_identity_witness :
    derivedWindow ([(5 : ℚ), 7].length) = 1 ∧
    (rollingMean [(5 : ℚ), 7] (derivedWindow [(5 : ℚ), 7].length)).map
        (Option.map fun v => v / 1000000) =
      [some ((5 : ℚ) / 1000000), some ((7 : ℚ) / 1000000)] := by
  have h := C10_small_run_smoothing_identity [(5 : ℚ), 7] (by norm_num)
  exact ⟨h.1, h.2.trans (by norm_num)⟩

/-- C2 amended: element i of the rolling average is the arithmetic mean of
the trailing window-many elements ending at i once at least window-many
elements are available, and is undefined (NaN, modelled none) before that;
hence the first output element equals the first input element only when the
window is 1 (sequences of fewer than 100 rows under the derived window). -/
theorem C2_rolling_trailing_mean (xs : List ℚ) (w i : ℕ) (hw : 1 ≤ w)
    (hi : i < xs.length) :
    (i + 1 < w → (rollingMean xs w)[i]? = some none) ∧
    (w ≤ i + 1 →
      ((xs.take (i + 1)).drop (i + 1 - w)).length = w ∧
      (rollingMean xs w)[i]? =
        some (some (((xs.take (i + 1)).drop (i + 1 - w)).sum /
          ((((xs.take (i + 1)).drop (i + 1 - w)).length : ℕ) : ℚ)))) := by
  constructor
  · intro hlt
    rw [rollingMean_getElem xs w i hi, if_pos hlt]
  · intro hge
    have hlen : ((xs.take (i + 1)).drop (i + 1 - w)).length = w := by
      simp only [List.length_drop, List.length_take]
      omega
    refine ⟨hlen, ?_⟩
    rw [rollingMean_getElem xs w i hi, if_neg (by omega), hlen]

/-- Witness for the amended C2 at a concrete input: window 2, index 1 of
[1, 2, 3] averages the trailing two elements. -/
theorem C2_rolling_trailing_mean_witness :
    (rollingMean [(1 : ℚ), 2, 3] 2)[1]? = some (some (3 / 2)) := by
  have h := (C2_rolling_trailing_mean [(1 : ℚ), 2, 3] 2 1 (by norm_num)
    (by norm_num)).2 (by norm_num)
  rw [h.2]
  norm_num

/-- C2 counterexample: with 100 samples the derived window is 2 and the first
output element is NaN (none), not the first input element, refuting the claim
that the boundary is averaged over however many elements are available. -/
theorem C2_counterexample :
    derivedWindow (List.replicate 100 (1 : ℚ)).length = 2 ∧
    (rollingMean (List.replicate 100 (1 : ℚ)) 2)[0]? = some none ∧
    (List.replicate 100 (1 : ℚ))[0]? = some (1 : ℚ) ∧
    (none : Option ℚ) ≠ some 1 := by
  refine ⟨by norm_num [derivedWindow], ?_, by simp, by simp⟩
  rw [rollingMean_getElem _ 2 0 (by simp)]
  norm_num

/-- C7: when the locator returns a directory it is one of the matching
entries and every entry sorts at or below it lexicographically, the run
builds charts against exactly that directory, and with zero matching entries
the run ends as `noResultSet` (exit 1) carrying no chart outcome, before any
chart is attempted. -/
theorem C7_locator_latest (dirs : List String) (f : String → FS) (m : String)
    (hm : locateLatest dirs = some m) :
    m ∈ dirs ∧ (∀ x ∈ dirs, strLe x m) ∧ runMain dirs f = runCharts (f m) ∧
      ∀ g : String → FS, runMain [] g = MainResult.noResultSet := by
  have hm2 : (List.insertionSort strLe dirs).getLast? = some m := hm
  have hperm := List.perm_insertionSort strLe dirs
  have hsorted := List.sorted_insertionSort strLe dirs
  have hmem : m ∈ List.insertionSort strLe dirs := by
    obtain ⟨ys, hys⟩ := List.getLast?_eq_some_iff.mp hm2
    rw [hys]; simp
  refine ⟨hperm.mem_iff.mp hmem, ?_, ?_, ?_⟩
  · intro x hx
    exact sorted_getLast_upper strLe strLe_refl _ m hsorted hm2 x
      (hperm.mem_iff.mpr hx)
  · simp [runMain, hm]
  · intro g
    simp [runMain, locateLatest, List.insertionSort]

/-- Witness for C7 at the spec's example directory listing. -/
theorem C7_locator_latest_witness :
    "run_2024-03-05" ∈ ["run_2024-01-01", "run_2024-03-05", "run_2024-02-10"] ∧
    runMain ["run_2024-01-01", "run_2024-03-05", "run_2024-02-10"]
        (fun _ => FS.mk none none none) = runCharts (FS.mk none none none) := by
  have h := C7_locator_latest ["run_2024-01-01", "run_2024-03-05", "run_2024-02-10"]
    (fun _ => FS.mk none none none) "run_2024-03-05" (by decide)
  exact ⟨h.1, h.2.2.1⟩

/-- C6: for a non-empty table the optimal point is a row of the table whose
metric (second component) is maximal, and on ties it is the first-occurring
maximal row: every strictly earlier row has a strictly smaller metric. -/
theorem C6_optimalPoint_first_max (t : List (ℚ × ℚ)) (h : t ≠ []) :
    ∃ (i : ℕ) (r : ℚ × ℚ), idxmaxFirst (t.map Prod.snd) = some i ∧
      optimalPoint t = some r ∧ t[i]? = some r ∧
      (∀ (j : ℕ) (rj : ℚ × ℚ), t[j]? = some rj → rj.2 ≤ r.2) ∧
      ∀ (j : ℕ) (rj : ℚ × ℚ), j < i → t[j]? = some rj → rj.2 < r.2 := by
  have hgd : ∀ (j : ℕ) (rj : ℚ × ℚ), t[j]? = some rj → (t.map Prod.snd).getD j 0 = rj.2 := by
    intro j rj hj
    rw [List.getD_eq_getElem?_getD, List.getElem?_map, hj]
    rfl
  cases hix : idxmaxFirst (t.map Prod.snd) with
  | none =>
    exfalso
    have := (idxmaxFirst_eq_none_iff _).mp hix
    rw [List.map_eq_nil_iff] at this
    exact h this
  | some i =>
    obtain ⟨hi1, hi2, hi3⟩ := idxmaxFirst_spec _ i hix
    rw [List.length_map] at hi1
    have hti : t[i]? = some t[i] := List.getElem?_eq_getElem hi1
    refine ⟨i, t[i], rfl, ?_, hti, ?_, ?_⟩
    · rw [optimalPoint, hix]
      simpa using hti
    · intro j rj hj
      obtain ⟨hjlen, _⟩ := List.getElem?_eq_some_iff.mp hj
      have := hi2 j (by simpa using hjlen)
      rwa [hgd j rj hj, hgd i t[i] hti] at this
    · intro j rj hjlt hj
      have := hi3 j hjlt
      rwa [hgd j rj hj, hgd i t[i] hti] at this

/-- Witness for C6 at a table with a tied maximum: the first-occurring tied
row (2, 400) is returned. -/
theorem C6_optimalPoint_first_max_witness :
    optimalPoint [((1 : ℚ), (100 : ℚ)), (2, 400), (3, 400)] = some (2, 400) := by
  obtain ⟨i, r, hix, hopt, hir, hub, hfirst⟩ :=
    C6_optimalPoint_first_max [((1 : ℚ), (100 : ℚ)), (2, 400), (3, 400)] (by simp)
  have hix2 : idxmaxFirst ([((1 : ℚ), (100 : ℚ)), (2, 400), (3, 400)].map Prod.snd) =
      some 1 := by
    norm_num [idxmaxFirst]
  rw [hix2] at hix
  obtain rfl : i = 1 := by simpa using hix.symm
  have h0 : ([((1 : ℚ), (100 : ℚ)), (2, 400), (3, 400)])[1]? =
      some ((2 : ℚ), (400 : ℚ)) := rfl
  rw [h0] at hir
  obtain rfl : r = ((2 : ℚ), (400 : ℚ)) := (Option.some.inj hir).symm
  exact hopt

/-- Unfolded form of the quantile embedding on non-empty input. -/
theorem quantileLin_eq (xs : List ℚ) (h : xs ≠ []) (p : ℚ) :
    quantileLin xs p =
      some ((sortQ xs).getD (⌊p * (((sortQ xs).length : ℚ) - 1)⌋).toNat 0 +
        (p * (((sortQ xs).length : ℚ) - 1) -
            ((⌊p * (((sortQ xs).length : ℚ) - 1)⌋ : ℤ) : ℚ)) *
          ((sortQ xs).getD ((⌊p * (((sortQ xs).length : ℚ) - 1)⌋).toNat + 1) 0 -
            (sortQ xs).getD (⌊p * (((sortQ xs).length : ℚ) - 1)⌋).toNat 0)) := by
  simp only [quantileLin]
  rw [if_neg h]

/-- Unfolded form of the spec's median cross-check on non-empty input. -/
theorem medianConv_eq (xs : List ℚ) (h : xs ≠ []) :
    medianConv xs =
      if (sortQ xs).length % 2 = 1 then some ((sortQ xs).getD ((sortQ xs).length / 2) 0)
      else some (((sortQ xs).getD ((sortQ xs).length / 2 - 1) 0 +
        (sortQ xs).getD ((sortQ xs).length / 2) 0) / 2) := by
  simp only [medianConv]
  rw [if_neg h]

/-- C5: the quantile embedding at one half equals the conventional
sorted-array midpoint median, for every non-empty sequence. -/
theorem C5_quantile_half_eq_median (xs : List ℚ) (h : xs ≠ []) :
    quantileLin xs (1 / 2) = medianConv xs := by
  rw [quantileLin_eq xs h, medianConv_eq xs h]
  set s := sortQ xs with hs
  have hn : 0 < s.length := by
    rw [hs, sortQ, List.length_insertionSort]
    exact List.length_pos.mpr h
  rcases Nat.even_or_odd s.length with he | ho
  · obtain ⟨k, hk⟩ := he
    have hk1 : 1 ≤ k := by omega
    have hv : (1 / 2 : ℚ) * ((s.length : ℚ) - 1) = (k : ℚ) - 1 / 2 := by
      rw [hk]; push_cast; ring
    have hfl : ⌊(1 / 2 : ℚ) * ((s.length : ℚ) - 1)⌋ = (k : ℤ) - 1 := by
      rw [hv, Int.floor_eq_iff]
      constructor
      · push_cast; linarith
      · push_cast; linarith
    have htn : ((k : ℤ) - 1).toNat = k - 1 := by omega
    have hmod : ¬ s.length % 2 = 1 := by omega
    have hdiv : s.length / 2 = k := by omega
    have hsucc : k - 1 + 1 = k := by omega
    rw [hfl, hv, htn, if_neg hmod, hdiv, hsucc]
    congr 1
    push_cast
    ring
  · obtain ⟨k, hk⟩ := ho
    have hv : (1 / 2 : ℚ) * ((s.length : ℚ) - 1) = (k : ℚ) := by
      rw [hk]; push_cast; ring
    have hfl : ⌊(1 / 2 : ℚ) * ((s.length : ℚ) - 1)⌋ = (k : ℤ) := by
      rw [hv]; exact Int.floor_natCast k
    have htn : ((k : ℤ)).toNat = k := Int.toNat_natCast k
    have hmod : s.length % 2 = 1 := by omega
    have hdiv : s.length / 2 = k := by omega
    rw [hfl, hv, htn, if_pos hmod, hdiv]
    congr 1
    push_cast
    ring

/-- Witness for C5 at a concrete sample whose median is 2. -/
theorem C5_quantile_half_eq_median_witness :
    quantileLin [(3 : ℚ), 1, 2] (1 / 2) = medianConv [(3 : ℚ), 1, 2] ∧
    medianConv [(3 : ℚ), 1, 2] = some 2 := by
  refine ⟨C5_quantile_half_eq_median [(3 : ℚ), 1, 2] (by simp), ?_⟩
  rw [medianConv_eq [(3 : ℚ), 1, 2] (by simp)]
  norm_num [sortQ, List.insertionSort, List.orderedInsert]

/-- The sustained build always returns normally: every code path is a skip or
a render, none raises. -/
theorem plotSustained_ok (fs : FS) : ∃ o, plotSustained fs = Except.ok o := by
  rw [plotSustained]
  cases fs.sustained_timeseries with
  | none => exact ⟨_, rfl⟩
  | some rows =>
    dsimp only
    split
    · exact ⟨_, rfl⟩
    · exact ⟨_, rfl⟩

/-- The latency build always returns normally: pandas quantiles yield NaN on
empty input instead of raising. -/
theorem plotLatency_ok (fs : FS) : ∃ o, plotLatency fs = Except.ok o := by
  rw [plotLatency]
  cases fs.latency_samples with
  | none => exact ⟨_, rfl⟩
  | some xs => exact ⟨_, rfl⟩

/-- The sweep build returns normally unless its table is present and empty,
the one case in which `idxmax` raises. -/
theorem plotBufferSizes_ok (fs : FS) (hb : fs.buffer_sizes ≠ some []) :
    ∃ o, plotBufferSizes fs = Except.ok o := by
  rw [plotBufferSizes]
  cases hfb : fs.buffer_sizes with
  | none => exact ⟨_, rfl⟩
  | some rows =>
    dsimp only
    have hr : rows ≠ [] := by rintro rfl; exact hb hfb
    cases hix : idxmaxFirst (rows.map Prod.snd) with
    | none =>
      exfalso
      have h0 := (idxmaxFirst_eq_none_iff _).mp hix
      rw [List.map_eq_nil_iff] at h0
      exact hr h0
    | some i =>
      exact ⟨_, rfl⟩

/-- C1 amended: nothing catches a chart-build failure.  An exception raised
in the sweep build terminates the run at once: no outcome is recorded, the
remaining builds are never attempted and the process exits nonzero.  The
sustained and latency builds themselves never raise, so the sweep build is
the only failure source. -/
theorem C1_failure_aborts_run (fs : FS) (e : PyErr)
    (h : plotBufferSizes fs = Except.error e) :
    runCharts fs = MainResult.crashed [] e ∧ exitCode (runCharts fs) ≠ 0 ∧
      ∀ e2 : PyErr, plotSustained fs ≠ Except.error e2 ∧
        plotLatency fs ≠ Except.error e2 := by
  have hrc : runCharts fs = MainResult.crashed [] e := by
    rw [runCharts, h]
  refine ⟨hrc, by rw [hrc]; simp [exitCode], ?_⟩
  intro e2
  obtain ⟨o1, h1⟩ := plotSustained_ok fs
  obtain ⟨o2, h2⟩ := plotLatency_ok fs
  rw [h1, h2]
  simp

/-- Data that makes the sweep build raise while well-formed sustained and
latency tables are waiting to be charted. -/
def fsCrash : FS :=
  { buffer_sizes := some []
    sustained_timeseries := some [⟨targetName, 0, 5⟩]
    latency_samples := some [10] }

/-- C1 counterexample: the locator succeeds, the sweep table is present but
empty, so its build raises; the run terminates with no chart outcome recorded
and a nonzero exit status, although the sustained and latency builds would
have succeeded.  This refutes the claim that a chart-build failure is caught
and the remaining builds still attempted. -/
theorem C1_counterexample :
    locateLatest ["benchmark_results_2024"] = some "benchmark_results_2024" ∧
    runMain ["benchmark_results_2024"] (fun _ => fsCrash) =
      MainResult.crashed [] PyErr.valueError ∧
    exitCode (runMain ["benchmark_results_2024"] (fun _ => fsCrash)) ≠ 0 := by
  have hloc : locateLatest ["benchmark_results_2024"] = some "benchmark_results_2024" := by
    decide
  have hpb : plotBufferSizes fsCrash = Except.error PyErr.valueError := by
    rw [plotBufferSizes]
    rfl
  have hrun : runMain ["benchmark_results_2024"] (fun _ => fsCrash) =
      MainResult.crashed [] PyErr.valueError := by
    rw [runMain, hloc]
    rw [runCharts, hpb]
  exact ⟨hloc, hrun, by rw [hrun]; simp [exitCode]⟩

/-- Witness for the amended C1 at the concrete crashing input. -/
theorem C1_failure_aborts_run_witness :
    runCharts fsCrash = MainResult.crashed [] PyErr.valueError ∧
    exitCode (runCharts fsCrash) ≠ 0 := by
  have h := C1_failure_aborts_run fsCrash PyErr.valueError (by rw [plotBufferSizes]; rfl)
  exact ⟨h.1, h.2.1⟩

/-- C3 amended: the sweep chart's primary series is the
(buffer_size, throughput / 1e6) pairs in table row order; the code does not
sort, so the series is ascending in buffer size only if the table already
is. -/
theorem C3_sweep_series_table_order (rows : List (ℚ × ℚ)) (i : ℕ)
    (hi : i < rows.length) :
    (sweepSeries rows).length = rows.length ∧
    ∃ r : ℚ × ℚ, rows[i]? = some r ∧ (sweepSeries rows)[i]? = some (r.1, r.2 / 1000000) := by
  refine ⟨by simp [sweepSeries], rows[i], List.getElem?_eq_getElem hi, ?_⟩
  simp [sweepSeries, List.getElem?_map, List.getElem?_eq_getElem hi]

/-- Witness for the amended C3 at a concrete table. -/
theorem C3_sweep_series_table_order_witness :
    (sweepSeries [((4 : ℚ), (100 : ℚ)), (2, 200)]).length = 2 ∧
    (sweepSeries [((4 : ℚ), (100 : ℚ)), (2, 200)])[0]? = some (4, 100 / 1000000) := by
  obtain ⟨hlen, r, hr, hser⟩ :=
    C3_sweep_series_table_order [((4 : ℚ), (100 : ℚ)), (2, 200)] 0 (by norm_num)
  have h0 : ([((4 : ℚ), (100 : ℚ)), (2, 200)])[0]? = some ((4 : ℚ), (100 : ℚ)) := rfl
  rw [h0] at hr
  obtain rfl : r = ((4 : ℚ), (100 : ℚ)) := (Option.some.inj hr).symm
  exact ⟨hlen, hser⟩

/-- C3 counterexample: a table whose rows are not ascending in buffer size is
plotted in row order, so the primary series is not ordered by buffer size
ascending, refuting the ordering part of the claim. -/
theorem C3_counterexample :
    sweepSeries [((4 : ℚ), (100 : ℚ)), (2, 200)] =
      [(4, 100 / 1000000), (2, 200 / 1000000)] ∧
    ¬ List.Sorted (fun a b : ℚ × ℚ => a.1 ≤ b.1)
      (sweepSeries [((4 : ℚ), (100 : ℚ)), (2, 200)]) := by
  have hser : sweepSeries [((4 : ℚ), (100 : ℚ)), (2, 200)] =
      [(4, 100 / 1000000), (2, 200 / 1000000)] := by
    simp [sweepSeries]
  refine ⟨hser, ?_⟩
  rw [hser]
  intro hsort
  have hle := (List.sorted_cons.mp hsort).1 (2, 200 / 1000000) (by simp)
  norm_num at hle

/-- C4 amended: the variance percentage equals (max - min) / mean * 100
whenever the mean is nonzero; with a zero mean the computation does not raise
an exception: numpy float division yields a non-finite value (modelled none)
and the build carries on. -/
theorem C4_variance_formula (xs : List ℚ) (h : xs ≠ []) :
    (listMean xs ≠ 0 →
      variancePct xs = some ((listMax xs - listMin xs) / listMean xs * 100)) ∧
    (listMean xs = 0 → variancePct xs = none) := by
  constructor
  · intro hm
    have hne : listMean xs / 1000000 ≠ 0 := by
      simp [div_eq_zero_iff, hm]
    rw [variancePct, floatDiv, if_neg hne, Option.map_some']
    congr 1
    field_simp
  · intro hm
    have hz : listMean xs / 1000000 = 0 := by rw [hm]; simp
    rw [variancePct, floatDiv, if_pos hz]
    rfl

/-- Witness for the amended C4 at a concrete series with mean 2. -/
theorem C4_variance_formula_witness :
    listMean [(1 : ℚ), 3] = 2 ∧ variancePct [(1 : ℚ), 3] = some 100 := by
  have hmean : listMean [(1 : ℚ), 3] = 2 := by
    norm_num [listMean]
  have h := (C4_variance_formula [(1 : ℚ), 3] (by simp)).1 (by rw [hmean]; norm_num)
  refine ⟨hmean, h.trans ?_⟩
  rw [hmean]
  norm_num [listMax, listMin, List.foldl, max_def, min_def]

/-- Sustained table whose filtered series has mean zero. -/
def fsZeroSustained : FS :=
  { buffer_sizes := none
    sustained_timeseries := some [⟨targetName, 0, 0⟩, ⟨targetName, 1, 0⟩]
    latency_samples := none }

/-- C4 counterexample: on an all-zero throughput series the mean is zero, yet
no `DivisionByZero` failure occurs: the build completes and renders, carrying
a non-finite (NaN) variance annotation.  This refutes the failure half of the
claim. -/
theorem C4_counterexample :
    listMean [(0 : ℚ), 0] = 0 ∧
    plotSustained fsZeroSustained =
      Except.ok (ChartOutcome.renderedSustained
        { primary := [(0, 0), (1, 0)]
          secondary := [(0, some 0), (1, some 0)]
          avgM := 0
          varPct := none }) := by
  constructor
  · norm_num [listMean]
  · norm_num [plotSustained, fsZeroSustained, List.filter, derivedWindow, rollingMean,
      List.range_succ, listMean, listMin, listMax, variancePct, floatDiv]

/-- C8 amended: a missing input file yields the skip outcome for that chart
and leaves the other builds untouched, and the run completes with exit code 0
provided the locator succeeded and the sweep table is not present-and-empty
(the only way any build can raise). -/
theorem C8_missing_input_skips (fs : FS) :
    (fs.buffer_sizes = none → plotBufferSizes fs = Except.ok ChartOutcome.skippedMissing) ∧
    (fs.sustained_timeseries = none →
      plotSustained fs = Except.ok ChartOutcome.skippedMissing) ∧
    (fs.latency_samples = none → plotLatency fs = Except.ok ChartOutcome.skippedMissing) ∧
    (fs.buffer_sizes ≠ some [] →
      ∃ o1 o2 o3, runCharts fs = MainResult.completed [o1, o2, o3] ∧
        exitCode (runCharts fs) = 0) := by
  refine ⟨?_, ?_, ?_, ?_⟩
  · intro hb; rw [plotBufferSizes, hb]
  · intro hsus; rw [plotSustained, hsus]
  · intro hlat; rw [plotLatency, hlat]
  · intro hb
    obtain ⟨o1, h1⟩ := plotBufferSizes_ok fs hb
    obtain ⟨o2, h2⟩ := plotSustained_ok fs
    obtain ⟨o3, h3⟩ := plotLatency_ok fs
    refine ⟨o1, o2, o3, ?_, ?_⟩
    · rw [runCharts, h1, h2, h3]
    · rw [runCharts, h1, h2, h3]
      rfl

/-- Witness for the amended C8: with all three inputs missing every build
skips and the run exits 0. -/
theorem C8_missing_input_skips_witness :
    plotBufferSizes (FS.mk none none none) = Except.ok ChartOutcome.skippedMissing ∧
    plotSustained (FS.mk none none none) = Except.ok ChartOutcome.skippedMissing ∧
    plotLatency (FS.mk none none none) = Except.ok ChartOutcome.skippedMissing ∧
    exitCode (runCharts (FS.mk none none none)) = 0 := by
  have h := C8_missing_input_skips (FS.mk none none none)
  obtain ⟨o1, o2, o3, hrc, hec⟩ := h.2.2.2 (by simp)
  exact ⟨h.1 rfl, h.2.1 rfl, h.2.2.1 rfl, hec⟩

/-- Result set whose latency input is missing while the sweep table is
present but empty. -/
def fsMissingLatency : FS :=
  { buffer_sizes := some []
    sustained_timeseries := none
    latency_samples := none }

/-- C8 counterexample: the latency input file is missing and the locator
succeeds, yet the run does not complete with exit code 0: the sweep build
raises on its present-but-empty table first, the later charts (including the
missing-input latency chart) are never reached, and the process exits
nonzero.  This refutes the unconditional exit-0 part of the claim. -/
theorem C8_counterexample :
    fsMissingLatency.latency_samples = none ∧
    runMain ["benchmark_results_2024"] (fun _ => fsMissingLatency) =
      MainResult.crashed [] PyErr.valueError ∧
    exitCode (runMain ["benchmark_results_2024"] (fun _ => fsMissingLatency)) ≠ 0 := by
  have hloc : locateLatest ["benchmark_results_2024"] = some "benchmark_results_2024" := by
    decide
  have hrun : runMain ["benchmark_results_2024"] (fun _ => fsMissingLatency) =
      MainResult.crashed [] PyErr.valueError := by
    rw [runMain, hloc]
    rw [runCharts]
    rfl
  exact ⟨rfl, hrun, by rw [hrun]; simp [exitCode]⟩
